import Mathlib

/-!
Shallow embedding of the computational core of qwwad (file `src/qclsim-fermi.cpp`,
which contains the Fermi-statistics functions, the multi-subband Fermi solver
`find_fermi_global`, and the `DebyeModel` specific-heat component).  Machine
doubles are embedded as real numbers; code that throws `std::runtime_error` is
embedded as `Except QwwadError`.
-/

/-- Modelled from the spec: Boltzmann constant [J/K] from `qclsim-constants.h`
(the constants header is not under src/; CODATA value used by the toolkit). -/
def kB : ℝ := 1.3806488e-23

/-- Modelled from the spec: reduced Planck constant [J s] from `qclsim-constants.h`
(not under src/). -/
def hBar : ℝ := 1.054571726e-34

/-- Modelled from the spec: Avogadro constant [1/mol] from `qclsim-constants.h`
(not under src/). -/
def Na : ℝ := 6.02214129e23

/-- Modelled from the spec: elementary charge [C], named `e` in
`qclsim-constants.h` (not under src/); used only to scale the solver tolerance. -/
def e_charge : ℝ := 1.602176565e-19

/-- The two error kinds of the core (section 7 of the design): the C++ code
raises them as `std::runtime_error`. -/
inductive QwwadError
  | invalidTemperature
  | noSolutionInRange

/-- `GSL_SIGN(x)` macro from GSL: `((x) >= 0.0 ? 1 : -1)`. -/
noncomputable def GSL_SIGN (x : ℝ) : ℤ := if 0 ≤ x then 1 else -1

/-- `f_FD` from qclsim-fermi.cpp: Fermi occupation probability
`1/(exp((E-E_F)/(kB*Te)) + 1)`. -/
noncomputable def f_FD (E_F E Te : ℝ) : ℝ :=
  1/(Real.exp ((E - E_F)/(kB*Te)) + 1)

/-- `f_FD_ionised` from qclsim-fermi.cpp: ionisation probability with
degeneracy factor `0.5` on the exponential term. -/
noncomputable def f_FD_ionised (E_F Ed Te : ℝ) : ℝ :=
  1/(0.5*Real.exp ((Ed - E_F)/(kB*Te)) + 1)

/-- `find_pop` from qclsim-fermi.cpp: population of one subband at a trial
Fermi energy.  `gsl_log1p(exp(y))` is embedded as `log (1 + exp y)`. -/
noncomputable def find_pop (Esb E_F md Te : ℝ) : ℝ :=
  let rho := md/(Real.pi*hBar*hBar)
  let y := -(Esb - E_F)/(kB*Te)
  let int_f_FD := kB*Te*Real.log (1 + Real.exp y)
  rho*int_f_FD

/-- `find_fermi` from qclsim-fermi.cpp: closed-form quasi-Fermi energy of a
single subband with known population.  `gsl_expm1(x)` is embedded as
`exp x - 1`. -/
noncomputable def find_fermi (Esb m N Te : ℝ) : ℝ :=
  Esb + kB*Te * Real.log (Real.exp ((N*Real.pi*hBar*hBar)/(m*kB*Te)) - 1)

/-- Total population of the subband ladder at a trial Fermi energy: the
accumulation `total_population += find_pop(E[ist], E_mid, m, Te)` performed
inside the bisection loop of `find_fermi_global`. -/
noncomputable def total_pop (m Te : ℝ) (E : List ℝ) (E_mid : ℝ) : ℝ :=
  (E.map (fun Ei => find_pop Ei E_mid m Te)).sum

/-- The mutable state of the bisection loop in `find_fermi_global`: the local
variables `E_min`, `E_max`, `E_mid`. -/
structure BisectState where
  E_min : ℝ
  E_max : ℝ
  E_mid : ℝ

/-- One iteration of the bisection loop body of `find_fermi_global`: compute
the total population at `E_mid`, take its sign relative to `N`, move the
endpoint (`E_min` if the midpoint sign equals the initial `sign_min`, else
`E_max`), then recompute `E_mid = (E_max + E_min)/2`. -/
noncomputable def bisect_step (m N Te : ℝ) (E : List ℝ) (sign_min : ℤ)
    (s : BisectState) : BisectState :=
  let sign_mid := GSL_SIGN (total_pop m Te E s.E_mid - N)
  let E_min := if sign_mid = sign_min then s.E_mid else s.E_min
  let E_max := if sign_mid = sign_min then s.E_max else s.E_mid
  ⟨E_min, E_max, (E_max + E_min)/2⟩

/-- The solver convergence tolerance `1e-8*e` (0.01 micro-eV) from
`find_fermi_global`. -/
def tol : ℝ := 1e-8 * e_charge

/-- The `while(fabs(E_max-E_min) > 1e-8*e)` loop of `find_fermi_global`,
embedded with explicit fuel.  The width of the bracket halves exactly at each
iteration, so any fuel with `2^fuel * tol ≥ |E_max - E_min|` makes the guard
fail before the fuel runs out, and the result is the loop's exit state. -/
noncomputable def bisect_loop (m N Te : ℝ) (E : List ℝ) (sign_min : ℤ) :
    ℕ → BisectState → BisectState
  | 0, s => s
  | Nat.succ n, s =>
    if tol < |s.E_max - s.E_min| then
      bisect_loop m N Te E sign_min n (bisect_step m N Te E sign_min s)
    else s

/-- The value returned by the solvable branch of `find_fermi_global`: the
final `E_mid` of the bisection loop started from the bracket
`[E[0] - 100*kB*Te, E[last] + 100*kB*Te]` with its midpoint, driven by the
initial sign `sign_min` (computed from the first subband only).  The fuel
`⌈|E_max - E_min|/tol⌉` is enough for the loop guard to fail before it is
exhausted, because the bracket width halves exactly at each iteration. -/
noncomputable def fermi_result (m N Te : ℝ) (E : List ℝ) : ℝ :=
  let E_min := E.headI - 100*kB*Te
  let E_max := E.getLastI + 100*kB*Te
  let sign_min := GSL_SIGN (find_pop E.headI E_min m Te - N)
  (bisect_loop m N Te E sign_min (Nat.ceil (|E_max - E_min|/tol))
    ⟨E_min, E_max, (E_min + E_max)/2⟩).E_mid

/-- `find_fermi_global` from qclsim-fermi.cpp: the signs of
`find_pop(E[0], ·, m, Te) - N` (note: first subband only) are taken at the two
bracket endpoints; with equal signs the function throws
`"No quasi-Fermi energy in range."`, otherwise it runs the bisection loop and
returns the final `E_mid`. -/
noncomputable def find_fermi_global (m N Te : ℝ) (E : List ℝ) :
    Except QwwadError ℝ :=
  if GSL_SIGN (find_pop E.headI (E.headI - 100*kB*Te) m Te - N)
      = GSL_SIGN (find_pop E.headI (E.getLastI + 100*kB*Te) m Te - N) then
    Except.error QwwadError.noSolutionInRange
  else
    Except.ok (fermi_result m N Te E)

/-- The indices of the subband-energy array read unconditionally by
`find_fermi_global`: `E[0]` (bracket bottom and both endpoint signs) and
`E[nst-1]` (bracket top), with `nst = E.size()`. -/
def fermi_global_index_reads (E : List ℝ) : List ℕ :=
  [0, E.length - 1]

/-- `DebyeModel` from debye.cpp (second half of src/src/qclsim-fermi.cpp):
immutable triple of Debye temperature, molar mass and atoms per formula
unit, stored by the constructor with no validation. -/
structure DebyeModel where
  T_D : ℝ
  M : ℝ
  natoms : ℕ

/-- Modelled from the spec: `gsl_sf_debye_3` (GSL special function, not under
src/), the third-order Debye integral `D_3(x) = (3/x^3) ∫_0^x t^3/(e^t - 1) dt`. -/
noncomputable def gsl_sf_debye_3 (x : ℝ) : ℝ :=
  (3/x^3) * ∫ t in (0:ℝ)..x, t^3/(Real.exp t - 1)

/-- The internal-energy formula of `DebyeModel::get_internal_energy` (the
value computed after the temperature guard):
`3 * Na * kB * T * D_3(T_D/T) * natoms / M`. -/
noncomputable def DebyeModel.internal_energy_formula (dm : DebyeModel) (T : ℝ) : ℝ :=
  3 * Na * kB * T * gsl_sf_debye_3 (dm.T_D/T) * (dm.natoms : ℝ)/dm.M

/-- `DebyeModel::get_internal_energy`: throws for `T <= 0`, otherwise returns
the Debye internal energy. -/
noncomputable def DebyeModel.get_internal_energy (dm : DebyeModel) (T : ℝ) :
    Except QwwadError ℝ :=
  if T ≤ 0 then Except.error QwwadError.invalidTemperature
  else Except.ok (dm.internal_energy_formula T)

/-- `DebyeModel::find_U`: the GSL wrapper around `get_internal_energy` used as
the function being differentiated (its evaluation points in `get_cp` are all
above the guarded threshold, so the formula branch applies). -/
noncomputable def DebyeModel.find_U (T : ℝ) (dm : DebyeModel) : ℝ :=
  dm.internal_energy_formula T

/-- Modelled from the spec: `gsl_deriv_forward` (GSL library, not under src/),
a forward finite-difference derivative estimate with the given step. -/
noncomputable def gsl_deriv_forward (f : ℝ → ℝ) (x h : ℝ) : ℝ :=
  (f (x + h) - f x)/h

/-- `DebyeModel::get_cp`: throws for `T <= 0`, otherwise returns the forward
finite-difference derivative of the internal energy with step 1 K. -/
noncomputable def DebyeModel.get_cp (dm : DebyeModel) (T : ℝ) :
    Except QwwadError ℝ :=
  if T ≤ 0 then Except.error QwwadError.invalidTemperature
  else Except.ok (gsl_deriv_forward (fun x => DebyeModel.find_U x dm) T 1)

/-- `DebyeModel::get_cp_low_T`: low-temperature approximation
`12*pi^4*Na*kB*T^3/(5*T_D^3) * natoms/M`, with no temperature guard. -/
noncomputable def DebyeModel.get_cp_low_T (dm : DebyeModel) (T : ℝ) : ℝ :=
  12*(Real.pi*Real.pi)*(Real.pi*Real.pi)*Na*kB*T*T*T/(dm.T_D*dm.T_D*dm.T_D*5)*(dm.natoms : ℝ)/dm.M

/-- `DebyeModel::get_cp_high_T`: Dulong-Petit limit `3*Na*kB*natoms/M`. -/
noncomputable def DebyeModel.get_cp_high_T (dm : DebyeModel) : ℝ :=
  3*Na*kB*(dm.natoms : ℝ)/dm.M

/-- The crossover temperature of `DebyeModel::get_cp_approx`:
`T_match = T_D * cbrt(1.25/pi^4)` (a local constant in the C++ function;
`std::cbrt` on this positive argument is the real cube root). -/
noncomputable def DebyeModel.T_match (dm : DebyeModel) : ℝ :=
  dm.T_D * (1.25/((Real.pi*Real.pi)*(Real.pi*Real.pi))) ^ ((1:ℝ)/3)

/-- `DebyeModel::get_cp_approx`: high-temperature form when `T > T_match`,
low-temperature form otherwise; no temperature guard. -/
noncomputable def DebyeModel.get_cp_approx (dm : DebyeModel) (T : ℝ) : ℝ :=
  if dm.T_match < T then dm.get_cp_high_T else dm.get_cp_low_T T

/-! ## Helper lemmas -/

lemma kB_pos : (0:ℝ) < kB := by norm_num [kB]

lemma kB_ne : (kB:ℝ) ≠ 0 := ne_of_gt kB_pos

lemma hBar_pos : (0:ℝ) < hBar := by norm_num [hBar]

lemma hBar_ne : (hBar:ℝ) ≠ 0 := ne_of_gt hBar_pos

lemma Na_pos : (0:ℝ) < Na := by norm_num [Na]

lemma tol_pos : (0:ℝ) < tol := by norm_num [tol, e_charge]

lemma pihh_pos : (0:ℝ) < Real.pi*hBar*hBar :=
  mul_pos (mul_pos Real.pi_pos hBar_pos) hBar_pos

lemma pihh_ne : Real.pi*hBar*hBar ≠ 0 := ne_of_gt pihh_pos

lemma GSL_SIGN_of_nonneg {x : ℝ} (h : 0 ≤ x) : GSL_SIGN x = 1 := by
  simp [GSL_SIGN, h]

lemma GSL_SIGN_of_neg {x : ℝ} (h : x < 0) : GSL_SIGN x = -1 := by
  simp [GSL_SIGN, not_le.mpr h]

lemma scale_cancel (c : ℝ) : c*kB*(1/kB) = c := by
  rw [mul_one_div, mul_div_assoc, div_self kB_ne, mul_one]

lemma log_one_add_exp_pos (y : ℝ) : 0 < Real.log (1 + Real.exp y) :=
  Real.log_pos (by linarith [Real.exp_pos y])

lemma log_one_add_exp_le (y : ℝ) : Real.log (1 + Real.exp y) ≤ Real.exp y := by
  have h := Real.add_one_le_exp (Real.exp y)
  calc Real.log (1 + Real.exp y) ≤ Real.log (Real.exp (Real.exp y)) := by
        apply Real.log_le_log (by positivity)
        linarith
    _ = Real.exp y := Real.log_exp _

lemma lt_log_one_add_exp (y : ℝ) : y < Real.log (1 + Real.exp y) := by
  have h : Real.exp y < 1 + Real.exp y := by linarith
  calc y = Real.log (Real.exp y) := (Real.log_exp y).symm
    _ < Real.log (1 + Real.exp y) := Real.log_lt_log (Real.exp_pos y) h

lemma log_one_add_exp_le_add {y : ℝ} (hy : 0 ≤ y) :
    Real.log (1 + Real.exp y) ≤ Real.log 2 + y := by
  have h1 : (1:ℝ) ≤ Real.exp y := Real.one_le_exp hy
  have h2 : (1:ℝ) + Real.exp y ≤ 2 * Real.exp y := by linarith
  calc Real.log (1 + Real.exp y) ≤ Real.log (2 * Real.exp y) :=
        Real.log_le_log (by positivity) h2
    _ = Real.log 2 + y := by
        rw [Real.log_mul (by norm_num) (ne_of_gt (Real.exp_pos y)), Real.log_exp]

lemma exp_neg_one_lt_half : Real.exp (-1) < 1/2 := by
  have h : (2:ℝ) < Real.exp 1 := lt_trans (by norm_num) Real.exp_one_gt_d9
  rw [Real.exp_neg]
  rw [show (1:ℝ)/2 = 2⁻¹ by norm_num]
  exact inv_strictAnti₀ (by norm_num) h

lemma exp_le_exp_neg_one {y : ℝ} (hy : y ≤ -1) : Real.exp y ≤ Real.exp (-1) :=
  Real.exp_le_exp.mpr hy

lemma log_one_add_exp_lt_half {y : ℝ} (hy : y ≤ -1) :
    Real.log (1 + Real.exp y) < 1/2 :=
  lt_of_le_of_lt (log_one_add_exp_le y)
    (lt_of_le_of_lt (exp_le_exp_neg_one hy) exp_neg_one_lt_half)

lemma log_two_gt_threefifths : (3:ℝ)/5 < Real.log 2 :=
  lt_trans (by norm_num) Real.log_two_gt_d9

lemma log_two_lt_one : Real.log 2 < 1 :=
  lt_trans Real.log_two_lt_d9 (by norm_num)

lemma find_pop_eq (Esb E_F md Te : ℝ) :
    find_pop Esb E_F md Te
      = md/(Real.pi*hBar*hBar) * (kB*Te*Real.log (1 + Real.exp (-(Esb - E_F)/(kB*Te)))) := rfl

lemma find_pop_scaled (Esb E_F : ℝ) :
    find_pop Esb E_F (Real.pi*hBar*hBar) (1/kB) = Real.log (1 + Real.exp (E_F - Esb)) := by
  rw [find_pop_eq, div_self pihh_ne, one_mul,
    show kB*(1/kB) = (1:ℝ) by rw [mul_one_div, div_self kB_ne]]
  rw [one_mul, div_one, neg_sub]

lemma find_pop_strictMono (Esb md Te : ℝ) (hm : 0 < md) (hT : 0 < Te)
    {a b : ℝ} (h : a < b) : find_pop Esb a md Te < find_pop Esb b md Te := by
  have hrho : 0 < md/(Real.pi*hBar*hBar) := div_pos hm pihh_pos
  have hkT : 0 < kB*Te := mul_pos kB_pos hT
  rw [find_pop_eq, find_pop_eq]
  have hy : -(Esb - a)/(kB*Te) < -(Esb - b)/(kB*Te) :=
    div_lt_div_of_pos_right (by linarith) hkT
  have hlog : Real.log (1 + Real.exp (-(Esb - a)/(kB*Te)))
      < Real.log (1 + Real.exp (-(Esb - b)/(kB*Te))) := by
    apply Real.log_lt_log (by positivity)
    have := Real.exp_lt_exp.mpr hy
    linarith
  exact mul_lt_mul_of_pos_left (mul_lt_mul_of_pos_left hlog hkT) hrho

lemma find_pop_mono (Esb md Te : ℝ) (hm : 0 < md) (hT : 0 < Te)
    {a b : ℝ} (h : a ≤ b) : find_pop Esb a md Te ≤ find_pop Esb b md Te := by
  rcases eq_or_lt_of_le h with rfl | hlt
  · exact le_rfl
  · exact le_of_lt (find_pop_strictMono Esb md Te hm hT hlt)

lemma total_pop_mono (md Te : ℝ) (E : List ℝ) (hm : 0 < md) (hT : 0 < Te)
    {a b : ℝ} (h : a ≤ b) : total_pop md Te E a ≤ total_pop md Te E b := by
  apply List.sum_le_sum
  intro Ei _
  exact find_pop_mono Ei md Te hm hT h

lemma bisect_loop_zero (m N Te : ℝ) (E : List ℝ) (sgn : ℤ) (s : BisectState) :
    bisect_loop m N Te E sgn 0 s = s := rfl

lemma bisect_loop_succ (m N Te : ℝ) (E : List ℝ) (sgn : ℤ) (n : ℕ) (s : BisectState) :
    bisect_loop m N Te E sgn (n+1) s
      = if tol < |s.E_max - s.E_min| then
          bisect_loop m N Te E sgn n (bisect_step m N Te E sgn s)
        else s := rfl

lemma bisect_step_E_min (m N Te : ℝ) (E : List ℝ) (sgn : ℤ) (s : BisectState) :
    (bisect_step m N Te E sgn s).E_min
      = if GSL_SIGN (total_pop m Te E s.E_mid - N) = sgn then s.E_mid else s.E_min := rfl

lemma bisect_step_E_max (m N Te : ℝ) (E : List ℝ) (sgn : ℤ) (s : BisectState) :
    (bisect_step m N Te E sgn s).E_max
      = if GSL_SIGN (total_pop m Te E s.E_mid - N) = sgn then s.E_max else s.E_mid := rfl

lemma bisect_step_E_mid (m N Te : ℝ) (E : List ℝ) (sgn : ℤ) (s : BisectState) :
    (bisect_step m N Te E sgn s).E_mid
      = ((bisect_step m N Te E sgn s).E_min + (bisect_step m N Te E sgn s).E_max)/2 := by
  show ((if GSL_SIGN (total_pop m Te E s.E_mid - N) = sgn then s.E_max else s.E_mid)
      + (if GSL_SIGN (total_pop m Te E s.E_mid - N) = sgn then s.E_mid else s.E_min))/2 = _
  rw [bisect_step_E_min, bisect_step_E_max]
  ring

lemma bisect_step_width (m N Te : ℝ) (E : List ℝ) (sgn : ℤ) (s : BisectState)
    (hmid : s.E_mid = (s.E_min + s.E_max)/2) :
    (bisect_step m N Te E sgn s).E_max - (bisect_step m N Te E sgn s).E_min
      = (s.E_max - s.E_min)/2 := by
  rw [bisect_step_E_min, bisect_step_E_max]
  split
  · rw [hmid]; ring
  · rw [hmid]; ring

lemma bisect_loop_guard_false (m N Te : ℝ) (E : List ℝ) (sgn : ℤ) (s : BisectState)
    (h : ¬ tol < |s.E_max - s.E_min|) (n : ℕ) :
    bisect_loop m N Te E sgn n s = s := by
  cases n with
  | zero => rfl
  | succ n => rw [bisect_loop_succ, if_neg h]

lemma bisect_loop_invariant (m N Te : ℝ) (E : List ℝ) (sgn : ℤ) (lo hi : ℝ) :
    ∀ (n : ℕ) (s : BisectState), lo ≤ s.E_min → s.E_max ≤ hi → s.E_min < s.E_max →
      s.E_mid = (s.E_min + s.E_max)/2 →
      lo ≤ (bisect_loop m N Te E sgn n s).E_min ∧
      (bisect_loop m N Te E sgn n s).E_max ≤ hi ∧
      (bisect_loop m N Te E sgn n s).E_min < (bisect_loop m N Te E sgn n s).E_max ∧
      (bisect_loop m N Te E sgn n s).E_mid
        = ((bisect_loop m N Te E sgn n s).E_min + (bisect_loop m N Te E sgn n s).E_max)/2 := by
  intro n
  induction n with
  | zero =>
    intro s h1 h2 h3 h4
    rw [bisect_loop_zero]
    exact ⟨h1, h2, h3, h4⟩
  | succ n ih =>
    intro s h1 h2 h3 h4
    rw [bisect_loop_succ]
    split
    · have hm1 : s.E_min < s.E_mid := by rw [h4]; linarith
      have hm2 : s.E_mid < s.E_max := by rw [h4]; linarith
      apply ih
      · rw [bisect_step_E_min]
        split
        · linarith
        · exact h1
      · rw [bisect_step_E_max]
        split
        · exact h2
        · linarith
      · rw [bisect_step_E_min, bisect_step_E_max]
        split
        · exact hm2
        · exact hm1
      · exact bisect_step_E_mid m N Te E sgn s
    · exact ⟨h1, h2, h3, h4⟩

lemma bisect_loop_stable (m N Te : ℝ) (E : List ℝ) (sgn : ℤ) :
    ∀ (n : ℕ) (s : BisectState) (fuel : ℕ), n ≤ fuel →
      s.E_mid = (s.E_min + s.E_max)/2 →
      |s.E_max - s.E_min| ≤ tol * 2^n →
      bisect_loop m N Te E sgn fuel s = bisect_loop m N Te E sgn n s := by
  intro n
  induction n with
  | zero =>
    intro s fuel _ _ hw
    rw [bisect_loop_zero]
    apply bisect_loop_guard_false
    rw [pow_zero, mul_one] at hw
    exact not_lt.mpr hw
  | succ n ih =>
    intro s fuel hf hmid hw
    obtain ⟨f, rfl⟩ : ∃ f, fuel = f + 1 := ⟨fuel - 1, by omega⟩
    rw [bisect_loop_succ, bisect_loop_succ]
    split
    · apply ih _ f (by omega) (bisect_step_E_mid m N Te E sgn s)
      rw [bisect_step_width m N Te E sgn s hmid, abs_div, abs_two]
      rw [pow_succ] at hw
      linarith [abs_nonneg (s.E_max - s.E_min)]
    · rfl

lemma fermi_result_between (m N Te : ℝ) (E : List ℝ)
    (hord : E.headI - 100*kB*Te < E.getLastI + 100*kB*Te) :
    E.headI - 100*kB*Te < fermi_result m N Te E ∧
    fermi_result m N Te E < E.getLastI + 100*kB*Te := by
  have H := bisect_loop_invariant m N Te E
    (GSL_SIGN (find_pop E.headI (E.headI - 100*kB*Te) m Te - N))
    (E.headI - 100*kB*Te) (E.getLastI + 100*kB*Te)
    (Nat.ceil (|(E.getLastI + 100*kB*Te) - (E.headI - 100*kB*Te)|/tol))
    ⟨E.headI - 100*kB*Te, E.getLastI + 100*kB*Te,
      ((E.headI - 100*kB*Te) + (E.getLastI + 100*kB*Te))/2⟩
    le_rfl le_rfl hord rfl
  obtain ⟨hA, hB, hC, hD⟩ := H
  constructor
  · show E.headI - 100*kB*Te < (bisect_loop m N Te E _ _ _).E_mid
    rw [hD]
    linarith
  · show (bisect_loop m N Te E _ _ _).E_mid < E.getLastI + 100*kB*Te
    rw [hD]
    linarith

lemma T_match_base_pos : (0:ℝ) < 1.25/((Real.pi*Real.pi)*(Real.pi*Real.pi)) := by
  have := Real.pi_pos
  positivity

lemma T_match_pos (dm : DebyeModel) (h : 0 < dm.T_D) : 0 < dm.T_match :=
  mul_pos h (Real.rpow_pos_of_pos T_match_base_pos _)

lemma T_match_cube (dm : DebyeModel) :
    dm.T_match^3 = dm.T_D^3 * (1.25/((Real.pi*Real.pi)*(Real.pi*Real.pi))) := by
  rw [DebyeModel.T_match, mul_pow]
  congr 1
  rw [← Real.rpow_natCast ((1.25/((Real.pi*Real.pi)*(Real.pi*Real.pi))) ^ ((1:ℝ)/3)) 3,
    ← Real.rpow_mul (le_of_lt T_match_base_pos)]
  norm_num

lemma get_cp_low_T_eq (dm : DebyeModel) (T : ℝ) :
    dm.get_cp_low_T T
      = (12*(Real.pi*Real.pi)*(Real.pi*Real.pi)*Na*kB*(dm.natoms:ℝ)/(dm.T_D*dm.T_D*dm.T_D*5*dm.M))
          * T^3 := by
  rw [DebyeModel.get_cp_low_T]
  ring

lemma low_at_T_match (dm : DebyeModel) (hT_D : dm.T_D ≠ 0) :
    dm.get_cp_low_T dm.T_match = dm.get_cp_high_T := by
  rw [get_cp_low_T_eq, DebyeModel.get_cp_high_T, T_match_cube]
  have hpi : Real.pi ≠ 0 := Real.pi_ne_zero
  rw [div_mul_eq_mul_div,
    show dm.T_D*dm.T_D*dm.T_D*5*dm.M = (dm.T_D*dm.T_D*dm.T_D*5)*dm.M from by ring,
    ← div_div]
  congr 1
  field_simp
  ring

lemma cube_mono : Monotone (fun a : ℝ => a ^ 3) :=
  (Odd.strictMono_pow (by decide)).monotone

lemma approx_eq_min (dm : DebyeModel) (h1 : 0 < dm.T_D) (h2 : 0 < dm.M) (T : ℝ) :
    dm.get_cp_approx T = min dm.get_cp_high_T (dm.get_cp_low_T T) := by
  have hC : 0 ≤ 12*(Real.pi*Real.pi)*(Real.pi*Real.pi)*Na*kB*(dm.natoms:ℝ)
      /(dm.T_D*dm.T_D*dm.T_D*5*dm.M) := by
    have := Real.pi_pos
    have := Na_pos
    have := kB_pos
    positivity
  rw [DebyeModel.get_cp_approx]
  split
  · rename_i h
    rw [eq_comm, min_eq_left]
    rw [← low_at_T_match dm (ne_of_gt h1), get_cp_low_T_eq, get_cp_low_T_eq]
    exact mul_le_mul_of_nonneg_left (cube_mono (le_of_lt h)) hC
  · rename_i h
    rw [eq_comm, min_eq_right]
    rw [← low_at_T_match dm (ne_of_gt h1), get_cp_low_T_eq, get_cp_low_T_eq]
    exact mul_le_mul_of_nonneg_left (cube_mono (not_lt.mp h)) hC

lemma approx_continuous (dm : DebyeModel) (h1 : 0 < dm.T_D) (h2 : 0 < dm.M) :
    Continuous (fun T => dm.get_cp_approx T) := by
  have heq : (fun T => dm.get_cp_approx T)
      = fun T => min dm.get_cp_high_T (dm.get_cp_low_T T) :=
    funext (approx_eq_min dm h1 h2)
  rw [heq]
  apply Continuous.min continuous_const
  have heq2 : dm.get_cp_low_T
      = fun T : ℝ =>
        (12*(Real.pi*Real.pi)*(Real.pi*Real.pi)*Na*kB*(dm.natoms:ℝ)
          /(dm.T_D*dm.T_D*dm.T_D*5*dm.M)) * T^3 :=
    funext (get_cp_low_T_eq dm)
  rw [heq2]
  exact continuous_const.mul (continuous_pow 3)

lemma find_fermi_eq (Esb m N Te : ℝ) :
    find_fermi Esb m N Te
      = Esb + kB*Te * Real.log (Real.exp ((N*Real.pi*hBar*hBar)/(m*kB*Te)) - 1) := rfl

/-! ## Claim theorems -/

/-- Claim C5: applying `find_fermi` (singleSubbandFermiEnergy) to the
population produced by `find_pop` (subbandPopulation) recovers the Fermi
energy exactly over exact real arithmetic, for every effective mass `m > 0`,
temperature `Te > 0` and Fermi energy within `Esb ± 50*kB*Te` (exact equality
implies the claimed 1e-6 relative tolerance). -/
theorem claim_C5_round_trip (Esb m Te E_F : ℝ) (hm : 0 < m) (hT : 0 < Te)
    (_hrange : |E_F - Esb| ≤ 50*kB*Te) :
    find_fermi Esb m (find_pop Esb E_F m Te) Te = E_F := by
  have hkT : kB*Te ≠ 0 := ne_of_gt (mul_pos kB_pos hT)
  have hTe : Te ≠ 0 := ne_of_gt hT
  have hm' : m ≠ 0 := ne_of_gt hm
  have hpi : Real.pi ≠ 0 := Real.pi_ne_zero
  have hkB : kB ≠ 0 := kB_ne
  have hh : hBar ≠ 0 := hBar_ne
  have hpos : (0:ℝ) < 1 + Real.exp (-(Esb - E_F)/(kB*Te)) := by positivity
  have key : find_pop Esb E_F m Te * Real.pi * hBar * hBar/(m*kB*Te)
      = Real.log (1 + Real.exp (-(Esb - E_F)/(kB*Te))) := by
    rw [find_pop_eq]
    field_simp
    ring
  rw [find_fermi_eq, key, Real.exp_log hpos, add_sub_cancel_left, Real.log_exp]
  have harg : kB*Te*(-(Esb - E_F)/(kB*Te)) = E_F - Esb := by
    field_simp
  rw [harg]
  ring

/-- Witness for C5 at the concrete input `Esb = 0`, `m = 1`, `Te = 1`,
`E_F = 0`. -/
theorem claim_C5_witness :
    (0:ℝ) < 1 ∧ |(0:ℝ) - 0| ≤ 50*kB*1 ∧
    find_fermi 0 1 (find_pop 0 0 1 1) 1 = 0 :=
  ⟨one_pos, by norm_num [kB], claim_C5_round_trip 0 1 1 0 one_pos one_pos (by norm_num [kB])⟩

/-- Claim C6: `find_pop` (subbandPopulation) is strictly increasing in the
Fermi-energy argument for every fixed subband minimum, mass `md > 0` and
temperature `Te > 0`. -/
theorem claim_C6_monotone (Esb md Te E_F1 E_F2 : ℝ) (hm : 0 < md) (hT : 0 < Te)
    (h : E_F1 < E_F2) : find_pop Esb E_F1 md Te < find_pop Esb E_F2 md Te :=
  find_pop_strictMono Esb md Te hm hT h

/-- Witness for C6 at the concrete input `Esb = 0`, `md = 1`, `Te = 1`,
`E_F1 = 0 < 1 = E_F2`. -/
theorem claim_C6_witness :
    (0:ℝ) < 1 ∧ (0:ℝ) < 1 ∧ (0:ℝ) < 1 ∧ find_pop 0 0 1 1 < find_pop 0 1 1 1 :=
  ⟨one_pos, one_pos, one_pos, claim_C6_monotone 0 1 1 0 1 one_pos one_pos one_pos⟩

/-- Claim C9 (implicit): the array indices `0` and `E.size()-1` read
unconditionally by `find_fermi_global` are all in bounds exactly when the
subband-energy array is non-empty; for the empty array the read of `E[0]` is
out of bounds. -/
theorem claim_C9_index_bounds (E : List ℝ) :
    (∀ i ∈ fermi_global_index_reads E, i < E.length) ↔ E ≠ [] := by
  cases E with
  | nil => simp [fermi_global_index_reads]
  | cons a tl =>
    simp [fermi_global_index_reads]

/-- Claim C10 (implicit): the `DebyeModel` constructor performs no validation:
for every argument triple, including invariant-violating ones such as
`T_D = 0` or `M = 0`, construction succeeds, the three values are stored
unchanged, and subsequent queries use the stored values as-is. -/
theorem claim_C10_constructor (T_D M : ℝ) (natoms : ℕ) :
    (DebyeModel.mk T_D M natoms).T_D = T_D ∧
    (DebyeModel.mk T_D M natoms).M = M ∧
    (DebyeModel.mk T_D M natoms).natoms = natoms ∧
    (DebyeModel.mk T_D M natoms).get_cp_high_T = 3*Na*kB*(natoms:ℝ)/M ∧
    (∀ T, (DebyeModel.mk T_D M natoms).get_cp_low_T T
      = 12*(Real.pi*Real.pi)*(Real.pi*Real.pi)*Na*kB*T*T*T/(T_D*T_D*T_D*5)*(natoms:ℝ)/M) :=
  ⟨rfl, rfl, rfl, rfl, fun _ => rfl⟩

lemma find_fermi_global_eq (m N Te : ℝ) (E : List ℝ) :
    find_fermi_global m N Te E
      = if GSL_SIGN (find_pop E.headI (E.headI - 100*kB*Te) m Te - N)
            = GSL_SIGN (find_pop E.headI (E.getLastI + 100*kB*Te) m Te - N) then
          Except.error QwwadError.noSolutionInRange
        else
          Except.ok (fermi_result m N Te E) := rfl

/-- Claim C1 (amended): `find_fermi_global` computes the endpoint residuals
from the FIRST subband only, `g1(x) = find_pop(E[0], x, m, Te) - N`; it raises
NoSolutionInRange if and only if the signs of `g1` at the two bracket
endpoints are equal, and when the signs differ it returns a Fermi energy
rather than failing.  (The claim's sum-over-subbands residual is refuted by
`claim_C1_counterexample`.) -/
theorem claim_C1_sign_check (m N Te : ℝ) (E : List ℝ) :
    (find_fermi_global m N Te E = Except.error QwwadError.noSolutionInRange
      ↔ GSL_SIGN (find_pop E.headI (E.headI - 100*kB*Te) m Te - N)
          = GSL_SIGN (find_pop E.headI (E.getLastI + 100*kB*Te) m Te - N)) ∧
    (GSL_SIGN (find_pop E.headI (E.headI - 100*kB*Te) m Te - N)
        ≠ GSL_SIGN (find_pop E.headI (E.getLastI + 100*kB*Te) m Te - N)
      → find_fermi_global m N Te E = Except.ok (fermi_result m N Te E)) := by
  by_cases h : GSL_SIGN (find_pop E.headI (E.headI - 100*kB*Te) m Te - N)
      = GSL_SIGN (find_pop E.headI (E.getLastI + 100*kB*Te) m Te - N)
  · refine ⟨?_, ?_⟩
    · rw [find_fermi_global_eq, if_pos h]
      simp [h]
    · intro hne
      exact absurd h hne
  · refine ⟨?_, ?_⟩
    · rw [find_fermi_global_eq, if_neg h]
      simp [h]
    · intro _
      rw [find_fermi_global_eq, if_neg h]

/-- Claim C7: in the bisection loop of `find_fermi_global`, each iteration
exactly halves the bracket width, and once `n` satisfies
`|E_max - E_min| ≤ tol * 2^n` (i.e. `n ≥ log2(width/tol)`), running the loop
with any larger fuel gives the same result as running it `n` iterations: the
loop terminates within `n` iterations, a bound independent of the subband
list `E`. -/
theorem claim_C7_bisection (m N Te : ℝ) (E : List ℝ) (sgn : ℤ) (s : BisectState)
    (n fuel : ℕ) (hmid : s.E_mid = (s.E_min + s.E_max)/2) (hfuel : n ≤ fuel)
    (hw : |s.E_max - s.E_min| ≤ tol * 2^n) :
    (bisect_step m N Te E sgn s).E_max - (bisect_step m N Te E sgn s).E_min
      = (s.E_max - s.E_min)/2 ∧
    bisect_loop m N Te E sgn fuel s = bisect_loop m N Te E sgn n s :=
  ⟨bisect_step_width m N Te E sgn s hmid,
   bisect_loop_stable m N Te E sgn n s fuel hfuel hmid hw⟩

/-- Witness for C7 at the concrete state `(E_min, E_max, E_mid) = (0, 1, 1/2)`
with `n = 90` and `fuel = 91` (the tolerance satisfies `tol * 2^90 ≥ 1`). -/
theorem claim_C7_witness :
    ((⟨0, 1, 1/2⟩ : BisectState)).E_mid
        = (((⟨0, 1, 1/2⟩ : BisectState)).E_min + ((⟨0, 1, 1/2⟩ : BisectState)).E_max)/2 ∧
    (90:ℕ) ≤ 91 ∧
    |((⟨0, 1, 1/2⟩ : BisectState)).E_max - ((⟨0, 1, 1/2⟩ : BisectState)).E_min|
        ≤ tol * 2^90 ∧
    ((bisect_step 1 0 1 [] 1 ⟨0, 1, 1/2⟩).E_max - (bisect_step 1 0 1 [] 1 ⟨0, 1, 1/2⟩).E_min
        = (((⟨0, 1, 1/2⟩ : BisectState)).E_max - ((⟨0, 1, 1/2⟩ : BisectState)).E_min)/2 ∧
      bisect_loop 1 0 1 [] 1 91 ⟨0, 1, 1/2⟩ = bisect_loop 1 0 1 [] 1 90 ⟨0, 1, 1/2⟩) := by
  have h1 : ((⟨0, 1, 1/2⟩ : BisectState)).E_mid
      = (((⟨0, 1, 1/2⟩ : BisectState)).E_min + ((⟨0, 1, 1/2⟩ : BisectState)).E_max)/2 := by
    norm_num
  have h2 : (90:ℕ) ≤ 91 := by norm_num
  have h3 : |((⟨0, 1, 1/2⟩ : BisectState)).E_max - ((⟨0, 1, 1/2⟩ : BisectState)).E_min|
      ≤ tol * 2^90 := by
    show |(1:ℝ) - 0| ≤ tol * 2^90
    rw [sub_zero, abs_one]
    norm_num [tol, e_charge]
  exact ⟨h1, h2, h3, claim_C7_bisection 1 0 1 [] 1 ⟨0, 1, 1/2⟩ 90 91 h1 h2 h3⟩

/-- Claim C1 counterexample: with two subbands `E = [0, 60]` (scaled units
`Te = 1/kB` so that `kB*Te = 1`, and `m = pi*hBar^2` so that the 2D density
of states is 1) and target `N = 200`, the solver raises NoSolutionInRange even
though the signed SUM residual `Σ_i find_pop(E_i, ·) - N` changes sign across
the initial bracket: the code takes the endpoint signs from the first subband
only, so the claimed iff is false at this input. -/
theorem claim_C1_counterexample :
    find_fermi_global (Real.pi*hBar*hBar) 200 (1/kB) [0, 60]
      = Except.error QwwadError.noSolutionInRange ∧
    GSL_SIGN (total_pop (Real.pi*hBar*hBar) (1/kB) [0, 60]
        (([0, 60] : List ℝ).headI - 100*kB*(1/kB)) - 200)
      ≠ GSL_SIGN (total_pop (Real.pi*hBar*hBar) (1/kB) [0, 60]
        (([0, 60] : List ℝ).getLastI + 100*kB*(1/kB)) - 200) := by
  have hh : ([0, 60] : List ℝ).headI = (0:ℝ) := rfl
  have hl : ([0, 60] : List ℝ).getLastI = (60:ℝ) := rfl
  have hc : (100:ℝ)*kB*(1/kB) = 100 := scale_cancel 100
  have e1 : (0:ℝ) - 100*kB*(1/kB) = -100 := by rw [hc]; norm_num
  have e2 : (60:ℝ) + 100*kB*(1/kB) = 160 := by rw [hc]; norm_num
  have p1 : find_pop 0 (-100) (Real.pi*hBar*hBar) (1/kB)
      = Real.log (1 + Real.exp (-100)) := by
    rw [find_pop_scaled]; norm_num
  have p2 : find_pop 0 160 (Real.pi*hBar*hBar) (1/kB)
      = Real.log (1 + Real.exp 160) := by
    rw [find_pop_scaled]; norm_num
  have h100 : Real.log (1 + Real.exp (-100)) < 1/2 :=
    log_one_add_exp_lt_half (by norm_num)
  have h160 : Real.log (1 + Real.exp 160) ≤ Real.log 2 + 160 :=
    log_one_add_exp_le_add (by norm_num)
  have s1 : GSL_SIGN (find_pop 0 (-100) (Real.pi*hBar*hBar) (1/kB) - 200) = -1 :=
    GSL_SIGN_of_neg (by rw [p1]; linarith)
  have s2 : GSL_SIGN (find_pop 0 160 (Real.pi*hBar*hBar) (1/kB) - 200) = -1 :=
    GSL_SIGN_of_neg (by rw [p2]; have := log_two_lt_one; linarith)
  constructor
  · rw [find_fermi_global_eq, hh, hl, e1, e2, if_pos (s1.trans s2.symm)]
  · rw [hh, hl, e1, e2]
    have t1 : total_pop (Real.pi*hBar*hBar) (1/kB) [0, 60] (-100)
        = Real.log (1 + Real.exp (-100)) + Real.log (1 + Real.exp (-160)) := by
      simp only [total_pop, List.map_cons, List.map_nil, List.sum_cons, List.sum_nil, add_zero]
      rw [find_pop_scaled, find_pop_scaled]
      norm_num
    have t2 : total_pop (Real.pi*hBar*hBar) (1/kB) [0, 60] 160
        = Real.log (1 + Real.exp 160) + Real.log (1 + Real.exp 100) := by
      simp only [total_pop, List.map_cons, List.map_nil, List.sum_cons, List.sum_nil, add_zero]
      rw [find_pop_scaled, find_pop_scaled]
      norm_num
    have h160b : Real.log (1 + Real.exp (-160)) < 1/2 :=
      log_one_add_exp_lt_half (by norm_num)
    have u1 : GSL_SIGN (total_pop (Real.pi*hBar*hBar) (1/kB) [0, 60] (-100) - 200) = -1 :=
      GSL_SIGN_of_neg (by rw [t1]; linarith)
    have u2 : GSL_SIGN (total_pop (Real.pi*hBar*hBar) (1/kB) [0, 60] 160 - 200) = 1 :=
      GSL_SIGN_of_nonneg (by
        rw [t2]
        have ha := lt_log_one_add_exp (160:ℝ)
        have hb := lt_log_one_add_exp (100:ℝ)
        linarith)
    rw [u1, u2]
    decide

/-- Claim C2 (amended): whenever `find_fermi_global` returns normally (the
endpoint signs differ) and the initial bracket is properly ordered, the
returned Fermi energy lies strictly between the initial bracket endpoints
`E[0] - 100*kB*Te` and `E[last] + 100*kB*Te`.  (The residual-tolerance clause
of the claim is refuted by `claim_C2_counterexample`: the endpoint sign check
uses only the first subband, so the sum residual need not bracket a root.) -/
theorem claim_C2_strict_bracket (m N Te : ℝ) (E : List ℝ)
    (hsgn : GSL_SIGN (find_pop E.headI (E.headI - 100*kB*Te) m Te - N)
      ≠ GSL_SIGN (find_pop E.headI (E.getLastI + 100*kB*Te) m Te - N))
    (hord : E.headI - 100*kB*Te < E.getLastI + 100*kB*Te) :
    find_fermi_global m N Te E = Except.ok (fermi_result m N Te E) ∧
    E.headI - 100*kB*Te < fermi_result m N Te E ∧
    fermi_result m N Te E < E.getLastI + 100*kB*Te :=
  ⟨by rw [find_fermi_global_eq, if_neg hsgn],
   (fermi_result_between m N Te E hord).1,
   (fermi_result_between m N Te E hord).2⟩

/-- Witness for C2 (amended) at the concrete solvable input: one subband at 0,
scaled units (`Te = 1/kB`, `m = pi*hBar^2`), `N = 1/2`. -/
theorem claim_C2_witness :
    (GSL_SIGN (find_pop (([0] : List ℝ)).headI
        ((([0] : List ℝ)).headI - 100*kB*(1/kB)) (Real.pi*hBar*hBar) (1/kB) - 1/2)
      ≠ GSL_SIGN (find_pop (([0] : List ℝ)).headI
        ((([0] : List ℝ)).getLastI + 100*kB*(1/kB)) (Real.pi*hBar*hBar) (1/kB) - 1/2)) ∧
    (([0] : List ℝ)).headI - 100*kB*(1/kB) < (([0] : List ℝ)).getLastI + 100*kB*(1/kB) ∧
    (find_fermi_global (Real.pi*hBar*hBar) (1/2) (1/kB) [0]
        = Except.ok (fermi_result (Real.pi*hBar*hBar) (1/2) (1/kB) [0]) ∧
      (([0] : List ℝ)).headI - 100*kB*(1/kB)
        < fermi_result (Real.pi*hBar*hBar) (1/2) (1/kB) [0] ∧
      fermi_result (Real.pi*hBar*hBar) (1/2) (1/kB) [0]
        < (([0] : List ℝ)).getLastI + 100*kB*(1/kB)) := by
  have hh : ([0] : List ℝ).headI = (0:ℝ) := rfl
  have hl : ([0] : List ℝ).getLastI = (0:ℝ) := rfl
  have hc : (100:ℝ)*kB*(1/kB) = 100 := scale_cancel 100
  have e1 : (0:ℝ) - 100*kB*(1/kB) = -100 := by rw [hc]; norm_num
  have e2 : (0:ℝ) + 100*kB*(1/kB) = 100 := by rw [hc]; norm_num
  have p1 : find_pop 0 (-100) (Real.pi*hBar*hBar) (1/kB)
      = Real.log (1 + Real.exp (-100)) := by
    rw [find_pop_scaled]; norm_num
  have p2 : find_pop 0 100 (Real.pi*hBar*hBar) (1/kB)
      = Real.log (1 + Real.exp 100) := by
    rw [find_pop_scaled]; norm_num
  have s1 : GSL_SIGN (find_pop 0 (-100) (Real.pi*hBar*hBar) (1/kB) - 1/2) = -1 :=
    GSL_SIGN_of_neg (by
      rw [p1]
      have := log_one_add_exp_lt_half (show (-100:ℝ) ≤ -1 by norm_num)
      linarith)
  have s2 : GSL_SIGN (find_pop 0 100 (Real.pi*hBar*hBar) (1/kB) - 1/2) = 1 :=
    GSL_SIGN_of_nonneg (by
      rw [p2]
      have := lt_log_one_add_exp (100:ℝ)
      linarith)
  have hsgn : GSL_SIGN (find_pop (([0] : List ℝ)).headI
        ((([0] : List ℝ)).headI - 100*kB*(1/kB)) (Real.pi*hBar*hBar) (1/kB) - 1/2)
      ≠ GSL_SIGN (find_pop (([0] : List ℝ)).headI
        ((([0] : List ℝ)).getLastI + 100*kB*(1/kB)) (Real.pi*hBar*hBar) (1/kB) - 1/2) := by
    rw [hh, hl, e1, e2, s1, s2]
    decide
  have hord : (([0] : List ℝ)).headI - 100*kB*(1/kB)
      < (([0] : List ℝ)).getLastI + 100*kB*(1/kB) := by
    rw [hh, hl, e1, e2]
    norm_num
  exact ⟨hsgn, hord,
    claim_C2_strict_bracket (Real.pi*hBar*hBar) (1/2) (1/kB) [0] hsgn hord⟩

/-- Claim C2 counterexample: with the subband array `[100, 0]` (scaled units,
see C1's counterexample) and `N = 1/2`, the solver returns normally, but the
absolute sum residual at the returned energy exceeds `1/10`, which is far
larger than the population-equivalent tolerance
`(#subbands) * (m/(pi*hBar^2)) * tol` derived from the energy tolerance: the
residual-tolerance clause of the claim fails. -/
theorem claim_C2_counterexample :
    find_fermi_global (Real.pi*hBar*hBar) (1/2) (1/kB) [100, 0]
      = Except.ok (fermi_result (Real.pi*hBar*hBar) (1/2) (1/kB) [100, 0]) ∧
    |total_pop (Real.pi*hBar*hBar) (1/kB) [100, 0]
        (fermi_result (Real.pi*hBar*hBar) (1/2) (1/kB) [100, 0]) - 1/2| > 1/10 ∧
    ((([100, 0] : List ℝ).length : ℝ))
        * ((Real.pi*hBar*hBar)/(Real.pi*hBar*hBar)) * tol < 1/10 := by
  have hh : ([100, 0] : List ℝ).headI = (100:ℝ) := rfl
  have hl : ([100, 0] : List ℝ).getLastI = (0:ℝ) := rfl
  have hc : (100:ℝ)*kB*(1/kB) = 100 := scale_cancel 100
  have e1 : (100:ℝ) - 100*kB*(1/kB) = 0 := by rw [hc]; norm_num
  have e2 : (0:ℝ) + 100*kB*(1/kB) = 100 := by rw [hc]; norm_num
  have p1 : find_pop 100 0 (Real.pi*hBar*hBar) (1/kB)
      = Real.log (1 + Real.exp (-100)) := by
    rw [find_pop_scaled]; norm_num
  have p2 : find_pop 100 100 (Real.pi*hBar*hBar) (1/kB)
      = Real.log 2 := by
    rw [find_pop_scaled]
    norm_num [Real.exp_zero]
  have s1 : GSL_SIGN (find_pop 100 0 (Real.pi*hBar*hBar) (1/kB) - 1/2) = -1 :=
    GSL_SIGN_of_neg (by
      rw [p1]
      have := log_one_add_exp_lt_half (show (-100:ℝ) ≤ -1 by norm_num)
      linarith)
  have s2 : GSL_SIGN (find_pop 100 100 (Real.pi*hBar*hBar) (1/kB) - 1/2) = 1 :=
    GSL_SIGN_of_nonneg (by
      rw [p2]
      have := log_two_gt_threefifths
      linarith)
  have hord : ([100, 0] : List ℝ).headI - 100*kB*(1/kB)
      < ([100, 0] : List ℝ).getLastI + 100*kB*(1/kB) := by
    rw [hh, hl, e1, e2]
    norm_num
  obtain ⟨hlo, hhi⟩ :=
    fermi_result_between (Real.pi*hBar*hBar) (1/2) (1/kB) [100, 0] hord
  rw [hh, e1] at hlo
  have hTe : (0:ℝ) < 1/kB := by
    rw [one_div]
    exact inv_pos.mpr kB_pos
  have hmono : total_pop (Real.pi*hBar*hBar) (1/kB) [100, 0] 0
      ≤ total_pop (Real.pi*hBar*hBar) (1/kB) [100, 0]
          (fermi_result (Real.pi*hBar*hBar) (1/2) (1/kB) [100, 0]) :=
    total_pop_mono (Real.pi*hBar*hBar) (1/kB) [100, 0] pihh_pos hTe (le_of_lt hlo)
  have t0 : total_pop (Real.pi*hBar*hBar) (1/kB) [100, 0] 0
      = Real.log (1 + Real.exp (-100)) + Real.log 2 := by
    simp only [total_pop, List.map_cons, List.map_nil, List.sum_cons, List.sum_nil, add_zero]
    rw [find_pop_scaled, find_pop_scaled]
    norm_num [Real.exp_zero]
  have hbig : total_pop (Real.pi*hBar*hBar) (1/kB) [100, 0]
      (fermi_result (Real.pi*hBar*hBar) (1/2) (1/kB) [100, 0]) - 1/2 > 1/10 := by
    have hpos := log_one_add_exp_pos (-100 : ℝ)
    have := log_two_gt_threefifths
    rw [t0] at hmono
    linarith
  refine ⟨?_, ?_, ?_⟩
  · rw [find_fermi_global_eq, hh, hl, e1, e2,
      if_neg (show GSL_SIGN (find_pop 100 0 (Real.pi*hBar*hBar) (1/kB) - 1/2)
          ≠ GSL_SIGN (find_pop 100 100 (Real.pi*hBar*hBar) (1/kB) - 1/2) from by
        rw [s1, s2]; decide)]
  · rw [abs_of_pos (by linarith)]
    exact hbig
  · rw [div_self pihh_ne]
    norm_num [tol, e_charge]

lemma get_internal_energy_eq (dm : DebyeModel) (T : ℝ) :
    dm.get_internal_energy T
      = if T ≤ 0 then Except.error QwwadError.invalidTemperature
        else Except.ok (dm.internal_energy_formula T) := rfl

lemma get_cp_eq (dm : DebyeModel) (T : ℝ) :
    dm.get_cp T
      = if T ≤ 0 then Except.error QwwadError.invalidTemperature
        else Except.ok (gsl_deriv_forward (fun x => DebyeModel.find_U x dm) T 1) := rfl

lemma get_cp_approx_eq (dm : DebyeModel) (T : ℝ) :
    dm.get_cp_approx T
      = if dm.T_match < T then dm.get_cp_high_T else dm.get_cp_low_T T := rfl

/-- Claim C3 (amended): only `get_internal_energy` (internalEnergy) and
`get_cp` (specificHeat) validate the temperature, raising InvalidTemperature
for `T ≤ 0`; `f_FD` (occupationProbability), `find_pop` (subbandPopulation),
`get_cp_low_T` (specificHeatLowT) and `get_cp_approx` (specificHeatApprox)
perform no temperature check and return their closed-form values for `T ≤ 0`
as well.  (The claim as stated is refuted by `claim_C3_counterexample`.) -/
theorem claim_C3_temperature_checks (dm : DebyeModel) (T : ℝ)
    (h1 : T ≤ 0) (h2 : 0 < dm.T_D) :
    dm.get_internal_energy T = Except.error QwwadError.invalidTemperature ∧
    dm.get_cp T = Except.error QwwadError.invalidTemperature ∧
    dm.get_cp_low_T T
      = 12*(Real.pi*Real.pi)*(Real.pi*Real.pi)*Na*kB*T*T*T
          /(dm.T_D*dm.T_D*dm.T_D*5)*(dm.natoms:ℝ)/dm.M ∧
    dm.get_cp_approx T = dm.get_cp_low_T T ∧
    (∀ E_F E : ℝ, f_FD E_F E T = 1/(Real.exp ((E - E_F)/(kB*T)) + 1)) ∧
    (∀ Esb E_F md : ℝ, find_pop Esb E_F md T
      = md/(Real.pi*hBar*hBar)*(kB*T*Real.log (1 + Real.exp (-(Esb - E_F)/(kB*T))))) := by
  refine ⟨?_, ?_, rfl, ?_, fun _ _ => rfl, fun _ _ _ => rfl⟩
  · rw [get_internal_energy_eq, if_pos h1]
  · rw [get_cp_eq, if_pos h1]
  · rw [get_cp_approx_eq, if_neg (not_lt.mpr (le_trans h1 (le_of_lt (T_match_pos dm h2))))]

/-- Witness for C3 (amended) at the concrete model `(T_D, M, natoms) = (1, 1, 1)`
and temperature `T = -1`. -/
theorem claim_C3_witness :
    (-1:ℝ) ≤ 0 ∧ (0:ℝ) < (DebyeModel.mk 1 1 1).T_D ∧
    ((DebyeModel.mk 1 1 1).get_internal_energy (-1)
        = Except.error QwwadError.invalidTemperature ∧
      (DebyeModel.mk 1 1 1).get_cp (-1) = Except.error QwwadError.invalidTemperature ∧
      (DebyeModel.mk 1 1 1).get_cp_low_T (-1)
        = 12*(Real.pi*Real.pi)*(Real.pi*Real.pi)*Na*kB*(-1)*(-1)*(-1)
            /(((DebyeModel.mk 1 1 1).T_D)*((DebyeModel.mk 1 1 1).T_D)*((DebyeModel.mk 1 1 1).T_D)*5)
            *(((DebyeModel.mk 1 1 1).natoms):ℝ)/((DebyeModel.mk 1 1 1).M) ∧
      (DebyeModel.mk 1 1 1).get_cp_approx (-1) = (DebyeModel.mk 1 1 1).get_cp_low_T (-1) ∧
      (∀ E_F E : ℝ, f_FD E_F E (-1) = 1/(Real.exp ((E - E_F)/(kB*(-1))) + 1)) ∧
      (∀ Esb E_F md : ℝ, find_pop Esb E_F md (-1)
        = md/(Real.pi*hBar*hBar)*(kB*(-1)*Real.log (1 + Real.exp (-(Esb - E_F)/(kB*(-1))))))) :=
  ⟨by norm_num, one_pos,
   claim_C3_temperature_checks (DebyeModel.mk 1 1 1) (-1) (by norm_num) one_pos⟩

/-- Claim C3 counterexample: at temperature `T = -1 ≤ 0` the operations
`get_cp_low_T`, `get_cp_approx`, `f_FD` and `find_pop` do NOT raise
InvalidTemperature: they are total and return their closed-form values (for
the model `(1,1,1)`, `get_cp_low_T(-1) = -12*pi^4*Na*kB/5`, a plain number). -/
theorem claim_C3_counterexample :
    DebyeModel.get_cp_low_T ⟨1, 1, 1⟩ (-1)
      = -(12*(Real.pi*Real.pi)*(Real.pi*Real.pi)*Na*kB/5) ∧
    DebyeModel.get_cp_approx ⟨1, 1, 1⟩ (-1)
      = -(12*(Real.pi*Real.pi)*(Real.pi*Real.pi)*Na*kB/5) ∧
    f_FD 0 0 (-1) = 1/2 ∧
    find_pop 0 0 1 (-1) = 1/(Real.pi*hBar*hBar)*(kB*(-1)*Real.log 2) := by
  have hlow : DebyeModel.get_cp_low_T ⟨1, 1, 1⟩ (-1)
      = -(12*(Real.pi*Real.pi)*(Real.pi*Real.pi)*Na*kB/5) := by
    rw [DebyeModel.get_cp_low_T]
    norm_num
    ring
  refine ⟨hlow, ?_, ?_, ?_⟩
  · rw [get_cp_approx_eq,
      if_neg (not_lt.mpr (le_trans (by norm_num) (le_of_lt (T_match_pos ⟨1, 1, 1⟩ one_pos))))]
    exact hlow
  · rw [f_FD]
    norm_num
  · rw [find_pop_eq]
    norm_num [Real.exp_zero]

/-- Claim C4 (amended): `get_cp_approx` dispatches exactly as claimed — the
high-temperature closed form when `T > T_match` and the low-temperature
closed form when `T ≤ T_match`, with
`T_match = T_D*(5/(4*pi^4))^(1/3)` — but at `T_match` the two closed forms
are EQUAL (`get_cp_low_T(T_match) = get_cp_high_T`), so the one-sided values
coincide and the dispatch is continuous: there is no jump discontinuity.
(The claimed jump is refuted by `claim_C4_counterexample`.) -/
theorem claim_C4_dispatch (dm : DebyeModel) (h1 : 0 < dm.T_D) (h2 : 0 < dm.M) :
    (∀ T, dm.T_match < T → dm.get_cp_approx T = dm.get_cp_high_T) ∧
    (∀ T, T ≤ dm.T_match → dm.get_cp_approx T = dm.get_cp_low_T T) ∧
    dm.T_match = dm.T_D * ((5/(4*Real.pi^4)) ^ ((1:ℝ)/3)) ∧
    dm.get_cp_low_T dm.T_match = dm.get_cp_high_T ∧
    Continuous (fun T => dm.get_cp_approx T) := by
  refine ⟨?_, ?_, ?_, low_at_T_match dm (ne_of_gt h1), approx_continuous dm h1 h2⟩
  · intro T hT
    rw [get_cp_approx_eq, if_pos hT]
  · intro T hT
    rw [get_cp_approx_eq, if_neg (not_lt.mpr hT)]
  · rw [DebyeModel.T_match]
    norm_num
    ring_nf
    exact Or.inl trivial

/-- Witness for C4 (amended) at the concrete model `(T_D, M, natoms) = (1, 1, 1)`. -/
theorem claim_C4_witness :
    (0:ℝ) < (DebyeModel.mk 1 1 1).T_D ∧ (0:ℝ) < (DebyeModel.mk 1 1 1).M ∧
    ((∀ T, (DebyeModel.mk 1 1 1).T_match < T
        → (DebyeModel.mk 1 1 1).get_cp_approx T = (DebyeModel.mk 1 1 1).get_cp_high_T) ∧
      (∀ T, T ≤ (DebyeModel.mk 1 1 1).T_match
        → (DebyeModel.mk 1 1 1).get_cp_approx T = (DebyeModel.mk 1 1 1).get_cp_low_T T) ∧
      (DebyeModel.mk 1 1 1).T_match
        = (DebyeModel.mk 1 1 1).T_D * ((5/(4*Real.pi^4)) ^ ((1:ℝ)/3)) ∧
      (DebyeModel.mk 1 1 1).get_cp_low_T (DebyeModel.mk 1 1 1).T_match
        = (DebyeModel.mk 1 1 1).get_cp_high_T ∧
      Continuous (fun T => (DebyeModel.mk 1 1 1).get_cp_approx T)) :=
  ⟨one_pos, one_pos, claim_C4_dispatch (DebyeModel.mk 1 1 1) one_pos one_pos⟩

/-- Claim C4 counterexample: for the concrete model `(T_D, M, natoms) = (1, 1, 1)`
the approximation has NO jump at the crossover: the low-temperature form at
`T_match` equals the high-temperature form, and `get_cp_approx` is continuous
at `T_match`. -/
theorem claim_C4_counterexample :
    DebyeModel.get_cp_low_T ⟨1, 1, 1⟩ (DebyeModel.T_match ⟨1, 1, 1⟩)
      = DebyeModel.get_cp_high_T ⟨1, 1, 1⟩ ∧
    ContinuousAt (fun T => DebyeModel.get_cp_approx ⟨1, 1, 1⟩ T)
      (DebyeModel.T_match ⟨1, 1, 1⟩) :=
  ⟨low_at_T_match ⟨1, 1, 1⟩ one_ne_zero,
   (approx_continuous ⟨1, 1, 1⟩ one_pos one_pos).continuousAt⟩

/-- Claim C8: for every DebyeModel satisfying the documented invariants,
`get_internal_energy` returns `3*Na*kB*T*natoms/M` times the third-order
Debye integral `D_3(T_D/T)` for every `T > 0`, and for every `T ≤ 0` both
`get_internal_energy` and `get_cp` fail with InvalidTemperature and return no
usable value. -/
theorem claim_C8_internal_energy (dm : DebyeModel)
    (_h1 : 0 < dm.T_D) (_h2 : 0 < dm.M) (_h3 : 1 ≤ dm.natoms) :
    (∀ T : ℝ, 0 < T → dm.get_internal_energy T
      = Except.ok (3*Na*kB*T*(dm.natoms:ℝ)/dm.M * gsl_sf_debye_3 (dm.T_D/T))) ∧
    (∀ T : ℝ, T ≤ 0 →
      dm.get_internal_energy T = Except.error QwwadError.invalidTemperature ∧
      dm.get_cp T = Except.error QwwadError.invalidTemperature) := by
  constructor
  · intro T hT
    rw [get_internal_energy_eq, if_neg (not_le.mpr hT)]
    congr 1
    rw [DebyeModel.internal_energy_formula]
    ring
  · intro T hT
    exact ⟨by rw [get_internal_energy_eq, if_pos hT],
      by rw [get_cp_eq, if_pos hT]⟩

/-- Witness for C8 at the concrete model `(T_D, M, natoms) = (1, 1, 1)`. -/
theorem claim_C8_witness :
    (0:ℝ) < (DebyeModel.mk 1 1 1).T_D ∧ (0:ℝ) < (DebyeModel.mk 1 1 1).M ∧
    1 ≤ (DebyeModel.mk 1 1 1).natoms ∧
    ((∀ T : ℝ, 0 < T → (DebyeModel.mk 1 1 1).get_internal_energy T
        = Except.ok (3*Na*kB*T*(((DebyeModel.mk 1 1 1).natoms):ℝ)/((DebyeModel.mk 1 1 1).M)
            * gsl_sf_debye_3 (((DebyeModel.mk 1 1 1).T_D)/T))) ∧
      (∀ T : ℝ, T ≤ 0 →
        (DebyeModel.mk 1 1 1).get_internal_energy T
          = Except.error QwwadError.invalidTemperature ∧
        (DebyeModel.mk 1 1 1).get_cp T = Except.error QwwadError.invalidTemperature)) :=
  ⟨one_pos, one_pos, le_refl 1,
   claim_C8_internal_energy (DebyeModel.mk 1 1 1) one_pos one_pos (le_refl 1)⟩
